import Mathlib

/-!
# Copy tasks of the Graphite recorder (src/gpu/graphite/CopyTask.cpp)

A shallow embedding of the three copy tasks and of the objects they talk to.

* An `sk_sp<T>` is an `Option`: `none` is the null pointer.
* The memory the tasks reach through their proxy pointers is the `World`: the
  `fTexture` field of every proxy, and the diagnostics written so far.
* `ResourceProvider` and `CommandBuffer` are external collaborators.  Each is
  an arbitrary, history-dependent oracle together with the list of calls it has
  received, so that "which calls were made, in which order" is observable.
* A method that dereferences a null pointer returns `none`.
-/

namespace skgpu.graphite

/-! ## Resources -/

/-- Identity of a `TextureProxy` object; an `sk_sp<TextureProxy>` is an `Option ProxyId`. -/
abbrev ProxyId := Nat

/-- A concrete backing texture. -/
structure Texture where
  id : Nat
deriving DecidableEq, Repr

/-- A GPU buffer: its identity and its byte size, fixed at creation. -/
structure Buffer where
  id : Nat
  fSize : Nat
deriving DecidableEq, Repr

/-- Accessor `Buffer::size()`. -/
def Buffer.size (b : Buffer) : Nat := b.fSize

/-- Value type `SkIRect`: left, top, right, bottom. -/
structure SkIRect where
  fLeft : Int
  fTop : Int
  fRight : Int
  fBottom : Int
deriving DecidableEq, Repr

/-- Value type `SkIPoint`. -/
structure SkIPoint where
  fX : Int
  fY : Int
deriving DecidableEq, Repr

/-- The `fTexture` field of every proxy: `none` while the proxy has no backing texture. -/
abbrev ProxyStore := ProxyId → Option Texture

/-- Memory reachable from a task besides its own fields. -/
structure World where
  fTexture : ProxyStore
  log : List String

/-! ## External collaborators -/

/-- The resource provider: `instantiate calls store p` is what instantiating proxy `p`
reports and how it leaves the proxies, given the calls the provider has served before. -/
structure ResourceProvider where
  instantiate : List ProxyId → ProxyStore → ProxyId → Bool × ProxyStore
  calls : List ProxyId

/-- A call received by the command buffer, with its arguments. -/
inductive Command where
  | copyBufferToBuffer (srcBuffer : Option Buffer) (srcOffset : Nat)
      (dstBuffer : Option Buffer) (dstOffset : Nat) (size : Nat)
  | copyTextureToBuffer (texture : Option Texture) (srcRect : SkIRect)
      (buffer : Option Buffer) (bufferOffset : Nat) (bufferRowBytes : Nat)
  | copyTextureToTexture (srcTexture : Option Texture) (srcRect : SkIRect)
      (dstTexture : Option Texture) (dstPoint : SkIPoint)
deriving DecidableEq, Repr

/-- The command buffer: `accepts recorded c` is the boolean the backend returns for call
`c` after the calls `recorded`. -/
structure CommandBuffer where
  accepts : List Command → Command → Bool
  recorded : List Command

/-- One backend call: the verdict, and the command buffer with the call recorded. -/
def CommandBuffer.call (cb : CommandBuffer) (c : Command) : Bool × CommandBuffer :=
  (cb.accepts cb.recorded c, { cb with recorded := cb.recorded ++ [c] })

/-- Method `CommandBuffer::copyBufferToBuffer(srcBuffer, srcOffset, dstBuffer, dstOffset, size)`. -/
def CommandBuffer.copyBufferToBuffer (cb : CommandBuffer) (srcBuffer : Option Buffer)
    (srcOffset : Nat) (dstBuffer : Option Buffer) (dstOffset : Nat) (size : Nat) :
    Bool × CommandBuffer :=
  cb.call (.copyBufferToBuffer srcBuffer srcOffset dstBuffer dstOffset size)

/-- Method `CommandBuffer::copyTextureToBuffer(texture, srcRect, buffer, bufferOffset,
bufferRowBytes)`; the texture and the buffer are taken by value. -/
def CommandBuffer.copyTextureToBuffer (cb : CommandBuffer) (texture : Option Texture)
    (srcRect : SkIRect) (buffer : Option Buffer) (bufferOffset : Nat) (bufferRowBytes : Nat) :
    Bool × CommandBuffer :=
  cb.call (.copyTextureToBuffer texture srcRect buffer bufferOffset bufferRowBytes)

/-- Method `CommandBuffer::copyTextureToTexture(srcTexture, srcRect, dstTexture, dstPoint)`. -/
def CommandBuffer.copyTextureToTexture (cb : CommandBuffer) (srcTexture : Option Texture)
    (srcRect : SkIRect) (dstTexture : Option Texture) (dstPoint : SkIPoint) :
    Bool × CommandBuffer :=
  cb.call (.copyTextureToTexture srcTexture srcRect dstTexture dstPoint)

/-- Modelled from the spec: the macro `SKGPU_LOG_E` of Log.h is not part of the sources at
hand; it emits one human-readable diagnostic, here appended to the diagnostics of the world. -/
def SKGPU_LOG_E (msg : String) (w : World) : World :=
  { w with log := w.log ++ [msg] }

/-- Modelled from the spec: `TextureProxy::InstantiateIfNotLazy(resourceProvider, proxy)` is
declared in TextureProxy.h, which is not part of the sources at hand.  It asks the provider
to resolve the proxy and reports success or failure; the provider decides both the answer
and the resulting state of the proxies. -/
def TextureProxy.InstantiateIfNotLazy (rp : ResourceProvider) (p : ProxyId) (w : World) :
    Bool × ResourceProvider × World :=
  let r := rp.instantiate rp.calls w.fTexture p
  (r.1, { rp with calls := rp.calls ++ [p] }, { w with fTexture := r.2 })

/-- Modelled from the spec: `TextureProxy::refTexture()` (TextureProxy.h, not part of the
sources at hand) obtains a strong reference to the backing texture of the proxy, null while
there is none. -/
def TextureProxy.refTexture (w : World) (p : ProxyId) : Option Texture :=
  w.fTexture p

/-- What `prepareResources` leaves behind: its boolean, the provider and the world. -/
structure Prepared where
  ok : Bool
  provider : ResourceProvider
  world : World

/-- What `addCommands` leaves behind: its boolean, the task and the command buffer. -/
structure Added (τ : Type) where
  ok : Bool
  task : τ
  commandBuffer : CommandBuffer

/-! ## CopyBufferToBufferTask -/

/-- Fields of `CopyBufferToBufferTask`. -/
structure CopyBufferToBufferTask where
  fSrcBuffer : Option Buffer
  fDstBuffer : Option Buffer
deriving DecidableEq, Repr

/-- The three `SkASSERT`s of `CopyBufferToBufferTask::Make`: both buffers non-null and of
equal size.  A caller contract, not a runtime check. -/
def CopyBufferToBufferTask.MakeAsserts (srcBuffer dstBuffer : Option Buffer) : Bool :=
  match srcBuffer, dstBuffer with
  | some s, some d => s.size == d.size
  | _, _ => false

/-- Factory `CopyBufferToBufferTask::Make`: the constructor moves both buffers into the task. -/
def CopyBufferToBufferTask.Make (srcBuffer dstBuffer : Option Buffer) :
    CopyBufferToBufferTask :=
  { fSrcBuffer := srcBuffer, fDstBuffer := dstBuffer }

/-- Method `CopyBufferToBufferTask::prepareResources`: `return true`. -/
def CopyBufferToBufferTask.prepareResources (_t : CopyBufferToBufferTask)
    (rp : ResourceProvider) (w : World) : Prepared :=
  { ok := true, provider := rp, world := w }

/-- Method `CopyBufferToBufferTask::addCommands`:
`commandBuffer->copyBufferToBuffer(fSrcBuffer, 0, fDstBuffer, 0, fDstBuffer->size())`. -/
def CopyBufferToBufferTask.addCommands (t : CopyBufferToBufferTask) (cb : CommandBuffer)
    (_w : World) : Option (Added CopyBufferToBufferTask) :=
  match t.fDstBuffer with
  | none => none
  | some d =>
    let r := cb.copyBufferToBuffer t.fSrcBuffer 0 t.fDstBuffer 0 d.size
    some { ok := r.1, task := t, commandBuffer := r.2 }

/-! ## CopyTextureToBufferTask -/

/-- Fields of `CopyTextureToBufferTask`. -/
structure CopyTextureToBufferTask where
  fTextureProxy : Option ProxyId
  fSrcRect : SkIRect
  fBuffer : Option Buffer
  fBufferOffset : Nat
  fBufferRowBytes : Nat
deriving DecidableEq, Repr

/-- Factory `CopyTextureToBufferTask::Make`: no check, the constructor stores the arguments. -/
def CopyTextureToBufferTask.Make (textureProxy : Option ProxyId) (srcRect : SkIRect)
    (buffer : Option Buffer) (bufferOffset bufferRowBytes : Nat) : CopyTextureToBufferTask :=
  { fTextureProxy := textureProxy
    fSrcRect := srcRect
    fBuffer := buffer
    fBufferOffset := bufferOffset
    fBufferRowBytes := bufferRowBytes }

/-- Method `CopyTextureToBufferTask::prepareResources`. -/
def CopyTextureToBufferTask.prepareResources (t : CopyTextureToBufferTask)
    (rp : ResourceProvider) (w : World) : Prepared :=
  match t.fTextureProxy with
  | none =>
    { ok := false, provider := rp
      world := SKGPU_LOG_E "No texture proxy specified for CopyTextureToBufferTask" w }
  | some p =>
    let r := TextureProxy.InstantiateIfNotLazy rp p w
    if !r.1 then
      { ok := false, provider := r.2.1
        world :=
          SKGPU_LOG_E "Could not instantiate texture proxy for CopyTextureToBufferTask!" r.2.2 }
    else
      { ok := true, provider := r.2.1, world := r.2.2 }

/-- Method `CopyTextureToBufferTask::addCommands`.  `fTextureProxy->refTexture()` needs a
non-null proxy; `std::move(fBuffer)` initialises the by-value buffer parameter, which leaves
`fBuffer` null. -/
def CopyTextureToBufferTask.addCommands (t : CopyTextureToBufferTask) (cb : CommandBuffer)
    (w : World) : Option (Added CopyTextureToBufferTask) :=
  match t.fTextureProxy with
  | none => none
  | some p =>
    let r := cb.copyTextureToBuffer (TextureProxy.refTexture w p) t.fSrcRect t.fBuffer
      t.fBufferOffset t.fBufferRowBytes
    some { ok := r.1, task := { t with fBuffer := none }, commandBuffer := r.2 }

/-! ## CopyTextureToTextureTask -/

/-- Fields of `CopyTextureToTextureTask`. -/
structure CopyTextureToTextureTask where
  fSrcProxy : Option ProxyId
  fSrcRect : SkIRect
  fDstProxy : Option ProxyId
  fDstPoint : SkIPoint
deriving DecidableEq, Repr

/-- Factory `CopyTextureToTextureTask::Make`: no check, the constructor stores the arguments. -/
def CopyTextureToTextureTask.Make (srcProxy : Option ProxyId) (srcRect : SkIRect)
    (dstProxy : Option ProxyId) (dstPoint : SkIPoint) : CopyTextureToTextureTask :=
  { fSrcProxy := srcProxy, fSrcRect := srcRect, fDstProxy := dstProxy, fDstPoint := dstPoint }

/-- Method `CopyTextureToTextureTask::prepareResources`. -/
def CopyTextureToTextureTask.prepareResources (t : CopyTextureToTextureTask)
    (rp : ResourceProvider) (w : World) : Prepared :=
  match t.fSrcProxy with
  | none =>
    { ok := false, provider := rp
      world := SKGPU_LOG_E "No src texture proxy specified for CopyTextureToTextureTask" w }
  | some s =>
    let r := TextureProxy.InstantiateIfNotLazy rp s w
    if !r.1 then
      { ok := false, provider := r.2.1
        world :=
          SKGPU_LOG_E "Could not instantiate src texture proxy for CopyTextureToTextureTask!"
            r.2.2 }
    else
      match t.fDstProxy with
      | none =>
        { ok := false, provider := r.2.1
          world :=
            SKGPU_LOG_E "No dst texture proxy specified for CopyTextureToTextureTask" r.2.2 }
      | some d =>
        let q := TextureProxy.InstantiateIfNotLazy r.2.1 d r.2.2
        if !q.1 then
          { ok := false, provider := q.2.1
            world :=
              SKGPU_LOG_E
                "Could not instantiate dst texture proxy for CopyTextureToTextureTask!" q.2.2 }
        else
          { ok := true, provider := q.2.1, world := q.2.2 }

/-- Method `CopyTextureToTextureTask::addCommands`.  Both `->refTexture()` calls need a
non-null proxy. -/
def CopyTextureToTextureTask.addCommands (t : CopyTextureToTextureTask) (cb : CommandBuffer)
    (w : World) : Option (Added CopyTextureToTextureTask) :=
  match t.fSrcProxy, t.fDstProxy with
  | some s, some d =>
    let r := cb.copyTextureToTexture (TextureProxy.refTexture w s) t.fSrcRect
      (TextureProxy.refTexture w d) t.fDstPoint
    some { ok := r.1, task := t, commandBuffer := r.2 }
  | _, _ => none

/-! ## The task interface -/

/-- The closed set of task variants behind the virtual `Task` interface. -/
inductive Task where
  | bufferToBuffer (t : CopyBufferToBufferTask)
  | textureToBuffer (t : CopyTextureToBufferTask)
  | textureToTexture (t : CopyTextureToTextureTask)
deriving DecidableEq, Repr

/-- Virtual dispatch of `Task::prepareResources`. -/
def Task.prepareResources (task : Task) (rp : ResourceProvider) (w : World) : Prepared :=
  match task with
  | .bufferToBuffer t => t.prepareResources rp w
  | .textureToBuffer t => t.prepareResources rp w
  | .textureToTexture t => t.prepareResources rp w

/-- Some texture proxy held by the task is null. -/
def Task.hasNullProxy : Task → Bool
  | .bufferToBuffer _ => false
  | .textureToBuffer t => t.fTextureProxy.isNone
  | .textureToTexture t => t.fSrcProxy.isNone || t.fDstProxy.isNone

/-- Some buffer held by the task is null. -/
def Task.hasNullBuffer : Task → Bool
  | .bufferToBuffer t => t.fSrcBuffer.isNone || t.fDstBuffer.isNone
  | .textureToBuffer t => t.fBuffer.isNone
  | .textureToTexture _ => false

/-! ## Concrete collaborators used to exercise the tasks -/

/-- A world in which no proxy is backed yet and nothing has been logged. -/
def freshWorld : World :=
  { fTexture := fun _ => none, log := [] }

/-- A provider that backs every unresolved proxy `p` with texture `p` and always succeeds. -/
def allocatingProvider : ResourceProvider :=
  { instantiate := fun _ store p =>
      match store p with
      | some _ => (true, store)
      | none => (true, Function.update store p (some { id := p }))
    calls := [] }

/-- A provider that can never allocate: it leaves the proxies alone and reports failure,
except on a proxy that is backed already. -/
def exhaustedProvider : ResourceProvider :=
  { instantiate := fun _ store p =>
      match store p with
      | some _ => (true, store)
      | none => (false, store)
    calls := [] }

/-- A provider with room for a single allocation: its first call behaves like the
allocating provider, every later one like the exhausted provider. -/
def singleShotProvider : ResourceProvider :=
  { instantiate := fun calls store p =>
      match store p with
      | some _ => (true, store)
      | none =>
        match calls with
        | [] => (true, Function.update store p (some { id := p }))
        | _ :: _ => (false, store)
    calls := [] }

/-- A command buffer that has recorded nothing and accepts every call. -/
def acceptingCommandBuffer : CommandBuffer :=
  { accepts := fun _ _ => true, recorded := [] }

/-- A command buffer that has recorded nothing and rejects every call. -/
def rejectingCommandBuffer : CommandBuffer :=
  { accepts := fun _ _ => false, recorded := [] }

/-- Modelled from the spec: the interface contract of `InstantiateIfNotLazy` (the function
itself is not part of the sources at hand).  A reported success leaves the proxy backed; on
a proxy that is backed already the call is a no-op success; and a proxy that is backed stays
backed, whichever proxy the provider is working on. -/
def ResourceProvider.MeetsContract (rp : ResourceProvider) : Prop :=
  ∀ (calls : List ProxyId) (store : ProxyStore) (p : ProxyId),
    ((rp.instantiate calls store p).1 = true →
      ((rp.instantiate calls store p).2 p).isSome = true) ∧
    ((store p).isSome = true → rp.instantiate calls store p = (true, store)) ∧
    (∀ q, (store q).isSome = true → ((rp.instantiate calls store p).2 q).isSome = true)

/-- World `v` is a later stage of world `w`: every proxy backed in `w` is backed in `v`. -/
def World.StaysBacked (w v : World) : Prop :=
  ∀ q, (w.fTexture q).isSome = true → (v.fTexture q).isSome = true

/-! ## Reading diagnostics -/

/-- The characters `word` open the text. -/
def opensWith : List Char → List Char → Bool
  | [], _ => true
  | _ :: _, [] => false
  | a :: word, b :: text => a == b && opensWith word text

/-- The characters `word` occur, contiguously, somewhere in the text. -/
def occursIn (word : List Char) : List Char → Bool
  | [] => word.isEmpty
  | c :: text => opensWith word (c :: text) || occursIn word text

/-- The diagnostic `msg` names `word`. -/
def mentions (msg word : String) : Bool :=
  occursIn word.toList msg.toList

/-! ## Theorems -/

/-- C1: a buffer-to-buffer task built by `Make` from non-null buffers of equal size records
exactly one backend call, `copyBufferToBuffer(src, 0, dst, 0, n)` with
`n = dst.size = src.size`, records nothing else, and returns the boolean of that call. -/
theorem C1_bufferToBuffer_addCommands_full_range (src dst : Buffer) (cb : CommandBuffer)
    (w : World) (hsize : src.size = dst.size) :
    CopyBufferToBufferTask.MakeAsserts (some src) (some dst) = true ∧
    ∃ n r, n = dst.size ∧ n = src.size ∧
      (CopyBufferToBufferTask.Make (some src) (some dst)).addCommands cb w = some r ∧
      r.commandBuffer.recorded =
        cb.recorded ++ [Command.copyBufferToBuffer (some src) 0 (some dst) 0 n] ∧
      r.commandBuffer.accepts = cb.accepts ∧
      r.ok = cb.accepts cb.recorded (Command.copyBufferToBuffer (some src) 0 (some dst) 0 n) := by
  refine ⟨by simp [CopyBufferToBufferTask.MakeAsserts, hsize], dst.size, _, rfl, hsize.symm,
    rfl, rfl, rfl, rfl⟩

/-- Witness of C1 at scenario A: two buffers of 256 bytes and an accepting command buffer. -/
theorem C1_bufferToBuffer_addCommands_full_range_witness :
    ∃ r, (CopyBufferToBufferTask.Make (some { id := 1, fSize := 256 })
            (some { id := 2, fSize := 256 })).addCommands acceptingCommandBuffer freshWorld
          = some r ∧
      r.commandBuffer.recorded =
        [Command.copyBufferToBuffer (some { id := 1, fSize := 256 }) 0
          (some { id := 2, fSize := 256 }) 0 256] ∧
      r.ok = true := by
  obtain ⟨_, n, r, hn, _, hr, hrec, _, hok⟩ :=
    C1_bufferToBuffer_addCommands_full_range { id := 1, fSize := 256 } { id := 2, fSize := 256 }
      acceptingCommandBuffer freshWorld rfl
  subst hn
  exact ⟨r, hr, hrec, hok⟩

/-- C2: `CopyTextureToBufferTask::prepareResources` fails exactly when the source proxy is
null or `InstantiateIfNotLazy` on it reports failure; with a null proxy the provider is not
invoked (it and the proxies are left as they were), otherwise it is invoked once, on that
proxy. -/
theorem C2_textureToBuffer_prepare_fails_iff (t : CopyTextureToBufferTask)
    (rp : ResourceProvider) (w : World) :
    ((t.prepareResources rp w).ok = false ↔
      (t.fTextureProxy = none ∨
        ∃ p, t.fTextureProxy = some p ∧ (rp.instantiate rp.calls w.fTexture p).1 = false)) ∧
    (t.fTextureProxy = none →
      (t.prepareResources rp w).provider.calls = rp.calls ∧
      (t.prepareResources rp w).world.fTexture = w.fTexture) ∧
    (∀ p, t.fTextureProxy = some p →
      (t.prepareResources rp w).provider.calls = rp.calls ++ [p]) := by
  cases hp : t.fTextureProxy with
  | none => simp [CopyTextureToBufferTask.prepareResources, hp, SKGPU_LOG_E]
  | some p =>
    simp only [CopyTextureToBufferTask.prepareResources, hp, TextureProxy.InstantiateIfNotLazy]
    cases hr : (rp.instantiate rp.calls w.fTexture p).1 <;> simp [hr]

/-- C3: `CopyTextureToTextureTask::prepareResources` succeeds exactly when both proxies are
non-null and `InstantiateIfNotLazy` succeeds on the source and then on the destination. -/
theorem C3_textureToTexture_prepare_succeeds_iff (t : CopyTextureToTextureTask)
    (rp : ResourceProvider) (w : World) :
    (t.prepareResources rp w).ok = true ↔
      ∃ s d, t.fSrcProxy = some s ∧ t.fDstProxy = some d ∧
        (rp.instantiate rp.calls w.fTexture s).1 = true ∧
        (rp.instantiate (rp.calls ++ [s]) (rp.instantiate rp.calls w.fTexture s).2 d).1
          = true := by
  cases hs : t.fSrcProxy with
  | none => simp [CopyTextureToTextureTask.prepareResources, hs]
  | some s =>
    simp only [CopyTextureToTextureTask.prepareResources, hs, TextureProxy.InstantiateIfNotLazy]
    cases hr : (rp.instantiate rp.calls w.fTexture s).1
    · simp [hr]
    · cases hd : t.fDstProxy with
      | none => simp
      | some d =>
        cases hq : (rp.instantiate (rp.calls ++ [s])
          (rp.instantiate rp.calls w.fTexture s).2 d).1 <;> simp [hq, hr]

/-- The allocating provider meets the contract of `InstantiateIfNotLazy`. -/
theorem allocatingProvider_meetsContract : allocatingProvider.MeetsContract := by
  intro calls store p
  simp only [allocatingProvider]
  cases hsp : store p with
  | some tex =>
    refine ⟨fun _ => by simp [hsp], fun _ => rfl, fun q hq => hq⟩
  | none =>
    refine ⟨fun _ => by simp, fun h => by simp at h, fun q hq => ?_⟩
    by_cases hqp : q = p
    · subst hqp; simp
    · simpa [Function.update_noteq hqp] using hq

/-- Counterexample to C4 as stated: a texture-to-buffer task whose destination buffer is
null, with a proxy the provider can back, passes `prepareResources`. -/
theorem C4_null_buffer_passes_prepareResources :
    (Task.textureToBuffer
      (CopyTextureToBufferTask.Make (some 7) ⟨0, 0, 64, 64⟩ none 128 256)).hasNullBuffer = true ∧
    ((Task.textureToBuffer
      (CopyTextureToBufferTask.Make (some 7) ⟨0, 0, 64, 64⟩ none 128 256)).prepareResources
        allocatingProvider freshWorld).ok = true := by
  exact ⟨rfl, rfl⟩

/-- C4 (amended): for every task variant `prepareResources` fails whenever a texture proxy
the task holds is null.  Buffers are not examined: the outcome of a texture-to-buffer task is
the same whatever its destination buffer is, null included. -/
theorem C4_null_proxy_fails_prepareResources (task : Task) (rp : ResourceProvider)
    (w : World) :
    (task.hasNullProxy = true → (task.prepareResources rp w).ok = false) ∧
    (∀ t b, task = Task.textureToBuffer t →
      (Task.textureToBuffer { t with fBuffer := b }).prepareResources rp w =
        task.prepareResources rp w) := by
  constructor
  · intro hnull
    cases task with
    | bufferToBuffer t => simp [Task.hasNullProxy] at hnull
    | textureToBuffer t =>
      have h : t.fTextureProxy = none := by simpa [Task.hasNullProxy] using hnull
      simp [Task.prepareResources, CopyTextureToBufferTask.prepareResources, h]
    | textureToTexture t =>
      simp only [Task.hasNullProxy, Bool.or_eq_true, Option.isNone_iff_eq_none] at hnull
      simp only [Task.prepareResources, CopyTextureToTextureTask.prepareResources]
      cases hs : t.fSrcProxy with
      | none => rfl
      | some s =>
        have hd : t.fDstProxy = none := by
          rcases hnull with h | h
          · simp [hs] at h
          · exact h
        simp only [hd]
        cases hr : (TextureProxy.InstantiateIfNotLazy rp s w).1 <;> simp [hr]
  · rintro t b rfl
    rfl

/-- Witness of C4 (amended): a texture-to-texture task without destination proxy fails
`prepareResources` even with a provider that can back everything. -/
theorem C4_null_proxy_fails_prepareResources_witness :
    (Task.textureToTexture
      (CopyTextureToTextureTask.Make (some 1) ⟨0, 0, 8, 8⟩ none ⟨0, 0⟩)).hasNullProxy = true ∧
    ((Task.textureToTexture
      (CopyTextureToTextureTask.Make (some 1) ⟨0, 0, 8, 8⟩ none ⟨0, 0⟩)).prepareResources
        allocatingProvider freshWorld).ok = false :=
  ⟨rfl, (C4_null_proxy_fails_prepareResources
    (Task.textureToTexture (CopyTextureToTextureTask.Make (some 1) ⟨0, 0, 8, 8⟩ none ⟨0, 0⟩))
    allocatingProvider freshWorld).1 rfl⟩

/-- C5: with a provider that meets the contract of `InstantiateIfNotLazy`, a failed
instantiation of a proxy of a texture copy task makes `prepareResources` fail; and when
`prepareResources` succeeds, `addCommands`, run in any later world in which backed proxies
are still backed, hands only non-null textures to the backend copy call. -/
theorem C5_prepared_textures_are_backed (rp : ResourceProvider) (w : World)
    (hrp : rp.MeetsContract) :
    (∀ t : CopyTextureToBufferTask,
      (∀ p, t.fTextureProxy = some p → (rp.instantiate rp.calls w.fTexture p).1 = false →
        (t.prepareResources rp w).ok = false) ∧
      ((t.prepareResources rp w).ok = true →
        ∀ (v : World) (cb : CommandBuffer), (t.prepareResources rp w).world.StaysBacked v →
          ∃ tex r, t.addCommands cb v = some r ∧
            r.commandBuffer.recorded = cb.recorded ++
              [Command.copyTextureToBuffer (some tex) t.fSrcRect t.fBuffer t.fBufferOffset
                t.fBufferRowBytes])) ∧
    (∀ t : CopyTextureToTextureTask,
      (∀ s, t.fSrcProxy = some s → (rp.instantiate rp.calls w.fTexture s).1 = false →
        (t.prepareResources rp w).ok = false) ∧
      (∀ s d, t.fSrcProxy = some s → t.fDstProxy = some d →
        (rp.instantiate (rp.calls ++ [s]) (rp.instantiate rp.calls w.fTexture s).2 d).1 = false →
        (t.prepareResources rp w).ok = false) ∧
      ((t.prepareResources rp w).ok = true →
        ∀ (v : World) (cb : CommandBuffer), (t.prepareResources rp w).world.StaysBacked v →
          ∃ stex dtex r, t.addCommands cb v = some r ∧
            r.commandBuffer.recorded = cb.recorded ++
              [Command.copyTextureToTexture (some stex) t.fSrcRect (some dtex) t.fDstPoint])) := by
  refine ⟨fun t => ⟨?_, ?_⟩, fun t => ⟨?_, ?_, ?_⟩⟩
  · intro p hp hfail
    simp [CopyTextureToBufferTask.prepareResources, hp, TextureProxy.InstantiateIfNotLazy, hfail]
  · cases hp : t.fTextureProxy with
    | none => simp [CopyTextureToBufferTask.prepareResources, hp]
    | some p =>
      simp only [CopyTextureToBufferTask.prepareResources, hp,
        TextureProxy.InstantiateIfNotLazy]
      cases hr : (rp.instantiate rp.calls w.fTexture p).1
      · simp
      · intro _ v cb hv
        have hback : ((rp.instantiate rp.calls w.fTexture p).2 p).isSome = true :=
          (hrp rp.calls w.fTexture p).1 hr
        have hvp : (v.fTexture p).isSome = true := hv p (by simpa using hback)
        obtain ⟨tex, htex⟩ := Option.isSome_iff_exists.mp hvp
        exact ⟨tex, _, by
          simp only [CopyTextureToBufferTask.addCommands, hp, TextureProxy.refTexture, htex]; rfl,
          rfl⟩
  · intro s hs hfail
    simp [CopyTextureToTextureTask.prepareResources, hs, TextureProxy.InstantiateIfNotLazy, hfail]
  · intro s d hs hd hfail
    simp only [CopyTextureToTextureTask.prepareResources, hs, hd,
      TextureProxy.InstantiateIfNotLazy]
    cases hr : (rp.instantiate rp.calls w.fTexture s).1 <;> simp [hfail]
  · cases hs : t.fSrcProxy with
    | none => simp [CopyTextureToTextureTask.prepareResources, hs]
    | some s =>
      simp only [CopyTextureToTextureTask.prepareResources, hs,
        TextureProxy.InstantiateIfNotLazy]
      cases hr : (rp.instantiate rp.calls w.fTexture s).1
      · simp
      · cases hd : t.fDstProxy with
        | none => simp
        | some d =>
          cases hq : (rp.instantiate (rp.calls ++ [s])
            (rp.instantiate rp.calls w.fTexture s).2 d).1
          · simp [hq]
          · intro _ v cb hv
            have hs1 : ((rp.instantiate rp.calls w.fTexture s).2 s).isSome = true :=
              (hrp rp.calls w.fTexture s).1 hr
            have hs2 := (hrp (rp.calls ++ [s]) (rp.instantiate rp.calls w.fTexture s).2 d).2.2
              s hs1
            have hd2 := (hrp (rp.calls ++ [s]) (rp.instantiate rp.calls w.fTexture s).2 d).1 hq
            have hvs : (v.fTexture s).isSome = true := hv s (by simpa [hq] using hs2)
            have hvd : (v.fTexture d).isSome = true := hv d (by simpa [hq] using hd2)
            obtain ⟨stex, hstex⟩ := Option.isSome_iff_exists.mp hvs
            obtain ⟨dtex, hdtex⟩ := Option.isSome_iff_exists.mp hvd
            exact ⟨stex, dtex, _, by
              simp only [CopyTextureToTextureTask.addCommands, hs, hd, TextureProxy.refTexture,
                hstex, hdtex]; rfl, rfl⟩

/-- Witness of C5: the allocating provider meets the contract, and after a successful
`prepareResources` in a fresh world a texture-to-texture task records a copy between the
two textures the provider allocated. -/
theorem C5_prepared_textures_are_backed_witness :
    allocatingProvider.MeetsContract ∧
    ((CopyTextureToTextureTask.Make (some 1) ⟨0, 0, 8, 8⟩ (some 2) ⟨4, 4⟩).prepareResources
      allocatingProvider freshWorld).ok = true ∧
    ∃ stex dtex r,
      (CopyTextureToTextureTask.Make (some 1) ⟨0, 0, 8, 8⟩ (some 2) ⟨4, 4⟩).addCommands
        acceptingCommandBuffer
        ((CopyTextureToTextureTask.Make (some 1) ⟨0, 0, 8, 8⟩ (some 2) ⟨4, 4⟩).prepareResources
          allocatingProvider freshWorld).world = some r ∧
      r.commandBuffer.recorded = acceptingCommandBuffer.recorded ++
        [Command.copyTextureToTexture (some stex) ⟨0, 0, 8, 8⟩ (some dtex) ⟨4, 4⟩] :=
  ⟨allocatingProvider_meetsContract, rfl,
    ((C5_prepared_textures_are_backed allocatingProvider freshWorld
      allocatingProvider_meetsContract).2
      (CopyTextureToTextureTask.Make (some 1) ⟨0, 0, 8, 8⟩ (some 2) ⟨4, 4⟩)).2.2 rfl _
      acceptingCommandBuffer (fun _ h => h)⟩

/-- C6: a texture-to-buffer task built by `Make` with a non-null proxy records, on its first
`addCommands`, exactly one backend call, `copyTextureToBuffer(proxy.refTexture(), srcRect,
buffer, bufferOffset, bufferRowBytes)` with the arguments given at construction, and
returns the boolean of that call. -/
theorem C6_textureToBuffer_addCommands_forwards (proxy : ProxyId) (srcRect : SkIRect)
    (buffer : Option Buffer) (bufferOffset bufferRowBytes : Nat) (cb : CommandBuffer)
    (w : World) :
    ∃ r, (CopyTextureToBufferTask.Make (some proxy) srcRect buffer bufferOffset
            bufferRowBytes).addCommands cb w = some r ∧
      r.commandBuffer.recorded = cb.recorded ++
        [Command.copyTextureToBuffer (TextureProxy.refTexture w proxy) srcRect buffer
          bufferOffset bufferRowBytes] ∧
      r.commandBuffer.accepts = cb.accepts ∧
      r.ok = cb.accepts cb.recorded
        (Command.copyTextureToBuffer (TextureProxy.refTexture w proxy) srcRect buffer
          bufferOffset bufferRowBytes) :=
  ⟨_, rfl, rfl, rfl, rfl⟩

/-- Scenario B, an instance of C6: an unbacked proxy, region (0,0,64,64), offset 128 and row
stride 256; `prepareResources` backs the proxy and `addCommands` records
`copyTextureToBuffer(texture, (0,0,64,64), buffer, 128, 256)`. -/
theorem C6_textureToBuffer_addCommands_forwards_witness :
    ((CopyTextureToBufferTask.Make (some 7) ⟨0, 0, 64, 64⟩ (some { id := 3, fSize := 16512 })
        128 256).prepareResources allocatingProvider freshWorld).ok = true ∧
    ∃ r, (CopyTextureToBufferTask.Make (some 7) ⟨0, 0, 64, 64⟩
            (some { id := 3, fSize := 16512 }) 128 256).addCommands acceptingCommandBuffer
          ((CopyTextureToBufferTask.Make (some 7) ⟨0, 0, 64, 64⟩
            (some { id := 3, fSize := 16512 }) 128 256).prepareResources allocatingProvider
              freshWorld).world = some r ∧
      r.commandBuffer.recorded =
        [Command.copyTextureToBuffer (some { id := 7 }) ⟨0, 0, 64, 64⟩
          (some { id := 3, fSize := 16512 }) 128 256] ∧
      r.ok = true := by
  refine ⟨rfl, ?_⟩
  obtain ⟨r, hr, hrec, _, hok⟩ :=
    C6_textureToBuffer_addCommands_forwards 7 ⟨0, 0, 64, 64⟩ (some { id := 3, fSize := 16512 })
      128 256 acceptingCommandBuffer
      ((CopyTextureToBufferTask.Make (some 7) ⟨0, 0, 64, 64⟩
        (some { id := 3, fSize := 16512 }) 128 256).prepareResources allocatingProvider
          freshWorld).world
  exact ⟨r, hr, hrec, hok⟩

/-- C7: a texture-to-texture task built by `Make` with both proxies non-null records exactly
one backend call, `copyTextureToTexture(srcProxy.refTexture(), srcRect,
dstProxy.refTexture(), dstPoint)`, source first and destination second, rectangle and point
as given at construction, and returns the boolean of that call. -/
theorem C7_textureToTexture_addCommands_forwards (srcProxy dstProxy : ProxyId)
    (srcRect : SkIRect) (dstPoint : SkIPoint) (cb : CommandBuffer) (w : World) :
    ∃ r, (CopyTextureToTextureTask.Make (some srcProxy) srcRect (some dstProxy)
            dstPoint).addCommands cb w = some r ∧
      r.commandBuffer.recorded = cb.recorded ++
        [Command.copyTextureToTexture (TextureProxy.refTexture w srcProxy) srcRect
          (TextureProxy.refTexture w dstProxy) dstPoint] ∧
      r.commandBuffer.accepts = cb.accepts ∧
      r.ok = cb.accepts cb.recorded
        (Command.copyTextureToTexture (TextureProxy.refTexture w srcProxy) srcRect
          (TextureProxy.refTexture w dstProxy) dstPoint) :=
  ⟨_, rfl, rfl, rfl, rfl⟩

/-- C8: `prepareResources` of a texture copy task logs nothing when it succeeds and exactly
one diagnostic when it fails.  The diagnostic names the task variant; for the
texture-to-texture task it names the failing side, `src` or `dst`, and no other; and when the
source is present and instantiates but the destination fails to instantiate, the one
diagnostic is the one about the dst proxy of CopyTextureToTextureTask. -/
theorem C8_prepareResources_diagnostics (rp : ResourceProvider) (w : World) :
    (∀ t : CopyTextureToBufferTask,
      ((t.prepareResources rp w).ok = true → (t.prepareResources rp w).world.log = w.log) ∧
      ((t.prepareResources rp w).ok = false →
        ∃ msg, (t.prepareResources rp w).world.log = w.log ++ [msg] ∧
          mentions msg "CopyTextureToBufferTask" = true)) ∧
    (∀ t : CopyTextureToTextureTask,
      ((t.prepareResources rp w).ok = true → (t.prepareResources rp w).world.log = w.log) ∧
      ((t.prepareResources rp w).ok = false →
        ∃ msg, (t.prepareResources rp w).world.log = w.log ++ [msg] ∧
          mentions msg "CopyTextureToTextureTask" = true ∧
          ((mentions msg "src" = true ∧ mentions msg "dst" = false ∧
              (t.fSrcProxy = none ∨
                ∃ s, t.fSrcProxy = some s ∧
                  (rp.instantiate rp.calls w.fTexture s).1 = false)) ∨
            (mentions msg "dst" = true ∧ mentions msg "src" = false ∧
              ∃ s, t.fSrcProxy = some s ∧ (rp.instantiate rp.calls w.fTexture s).1 = true ∧
                (t.fDstProxy = none ∨
                  ∃ d, t.fDstProxy = some d ∧
                    (rp.instantiate (rp.calls ++ [s])
                      (rp.instantiate rp.calls w.fTexture s).2 d).1 = false)))) ∧
      (∀ s d, t.fSrcProxy = some s → t.fDstProxy = some d →
        (rp.instantiate rp.calls w.fTexture s).1 = true →
        (rp.instantiate (rp.calls ++ [s]) (rp.instantiate rp.calls w.fTexture s).2 d).1 = false →
        (t.prepareResources rp w).world.log = w.log ++
          ["Could not instantiate dst texture proxy for CopyTextureToTextureTask!"])) := by
  refine ⟨fun t => ?_, fun t => ?_⟩
  · cases hp : t.fTextureProxy with
    | none =>
      simp only [CopyTextureToBufferTask.prepareResources, hp, SKGPU_LOG_E]
      exact ⟨fun h => by simp at h, fun _ => ⟨_, rfl, by decide⟩⟩
    | some p =>
      simp only [CopyTextureToBufferTask.prepareResources, hp, SKGPU_LOG_E,
        TextureProxy.InstantiateIfNotLazy]
      cases hr : (rp.instantiate rp.calls w.fTexture p).1
      · exact ⟨fun h => by simp at h, fun _ => ⟨_, rfl, by decide⟩⟩
      · exact ⟨fun _ => rfl, fun h => by simp at h⟩
  · cases hs : t.fSrcProxy with
    | none =>
      simp only [CopyTextureToTextureTask.prepareResources, hs, SKGPU_LOG_E]
      refine ⟨fun h => by simp at h, fun _ => ⟨_, rfl, by decide, Or.inl ⟨by decide, by decide,
        Or.inl trivial⟩⟩, fun s d h => by simp at h⟩
    | some s =>
      simp only [CopyTextureToTextureTask.prepareResources, hs, SKGPU_LOG_E,
        TextureProxy.InstantiateIfNotLazy]
      cases hr : (rp.instantiate rp.calls w.fTexture s).1
      · refine ⟨fun h => by simp at h, fun _ => ⟨_, rfl, by decide, Or.inl ⟨by decide,
          by decide, Or.inr ⟨s, rfl, hr⟩⟩⟩, fun s2 d h _ h2 => ?_⟩
        cases h
        simp [hr] at h2
      · cases hd : t.fDstProxy with
        | none =>
          refine ⟨fun h => by simp at h, fun _ => ⟨_, rfl, by decide, Or.inr ⟨by decide,
            by decide, s, rfl, hr, Or.inl rfl⟩⟩, fun s2 d _ h => by simp at h⟩
        | some d =>
          cases hq : (rp.instantiate (rp.calls ++ [s])
            (rp.instantiate rp.calls w.fTexture s).2 d).1
          · refine ⟨fun h => by simp [hq] at h, fun _ => ⟨_, by simp only [hq]; rfl, by decide,
              Or.inr ⟨by decide, by decide, s, rfl, hr, Or.inr ⟨d, rfl, hq⟩⟩⟩,
              fun s2 d2 h1 h2 _ _ => ?_⟩
            cases h1
            cases h2
            simp only [hq]
            rfl
          · refine ⟨fun _ => by simp only [hq]; rfl, fun h => by simp [hq] at h,
              fun s2 d2 h1 h2 _ h4 => ?_⟩
            cases h1
            cases h2
            simp [hq] at h4

/-- Scenario C, an instance of C8: both proxies unbacked, the provider has room for one
allocation only; `prepareResources` fails and its one diagnostic is the dst one. -/
theorem C8_prepareResources_diagnostics_witness :
    ((CopyTextureToTextureTask.Make (some 1) ⟨0, 0, 8, 8⟩ (some 2) ⟨4, 4⟩).prepareResources
      singleShotProvider freshWorld).ok = false ∧
    ((CopyTextureToTextureTask.Make (some 1) ⟨0, 0, 8, 8⟩ (some 2) ⟨4, 4⟩).prepareResources
      singleShotProvider freshWorld).world.log =
        ["Could not instantiate dst texture proxy for CopyTextureToTextureTask!"] :=
  ⟨rfl, ((C8_prepareResources_diagnostics singleShotProvider freshWorld).2
    (CopyTextureToTextureTask.Make (some 1) ⟨0, 0, 8, 8⟩ (some 2) ⟨4, 4⟩)).2.2 1 2 rfl rfl rfl
    rfl⟩

/-- C9: `addCommands` of the texture-to-buffer task moves the destination buffer out of the
task: afterwards `fBuffer` is null, the other fields are as before, and a second
`addCommands` forwards a null buffer.  `addCommands` of the buffer-to-buffer and of the
texture-to-texture task leaves the task as it was, and a second run records the same call
again. -/
theorem C9_addCommands_frame (cb : CommandBuffer) (w : World) :
    (∀ (proxy : ProxyId) (srcRect : SkIRect) (buffer : Option Buffer)
        (bufferOffset bufferRowBytes : Nat),
      ∃ r r2,
        (CopyTextureToBufferTask.Make (some proxy) srcRect buffer bufferOffset
          bufferRowBytes).addCommands cb w = some r ∧
        r.task.fBuffer = none ∧ r.task.fTextureProxy = some proxy ∧
        r.task.fSrcRect = srcRect ∧ r.task.fBufferOffset = bufferOffset ∧
        r.task.fBufferRowBytes = bufferRowBytes ∧
        r.commandBuffer.recorded = cb.recorded ++
          [Command.copyTextureToBuffer (TextureProxy.refTexture w proxy) srcRect buffer
            bufferOffset bufferRowBytes] ∧
        r.task.addCommands r.commandBuffer w = some r2 ∧
        r2.commandBuffer.recorded = r.commandBuffer.recorded ++
          [Command.copyTextureToBuffer (TextureProxy.refTexture w proxy) srcRect none
            bufferOffset bufferRowBytes]) ∧
    (∀ (srcBuffer : Option Buffer) (dstBuffer : Buffer),
      ∃ r r2 c,
        (CopyBufferToBufferTask.Make srcBuffer (some dstBuffer)).addCommands cb w = some r ∧
        r.task = CopyBufferToBufferTask.Make srcBuffer (some dstBuffer) ∧
        r.commandBuffer.recorded = cb.recorded ++ [c] ∧
        r.task.addCommands r.commandBuffer w = some r2 ∧
        r2.task = r.task ∧
        r2.commandBuffer.recorded = r.commandBuffer.recorded ++ [c]) ∧
    (∀ (srcProxy dstProxy : ProxyId) (srcRect : SkIRect) (dstPoint : SkIPoint),
      ∃ r r2 c,
        (CopyTextureToTextureTask.Make (some srcProxy) srcRect (some dstProxy)
          dstPoint).addCommands cb w = some r ∧
        r.task = CopyTextureToTextureTask.Make (some srcProxy) srcRect (some dstProxy)
          dstPoint ∧
        r.commandBuffer.recorded = cb.recorded ++ [c] ∧
        r.task.addCommands r.commandBuffer w = some r2 ∧
        r2.task = r.task ∧
        r2.commandBuffer.recorded = r.commandBuffer.recorded ++ [c]) := by
  refine ⟨fun proxy srcRect buffer bufferOffset bufferRowBytes => ?_,
    fun srcBuffer dstBuffer => ?_, fun srcProxy dstProxy srcRect dstPoint => ?_⟩
  · exact ⟨_, _, rfl, rfl, rfl, rfl, rfl, rfl, rfl, rfl, rfl⟩
  · exact ⟨_, _, _, rfl, rfl, rfl, rfl, rfl, rfl⟩
  · exact ⟨_, _, _, rfl, rfl, rfl, rfl, rfl, rfl⟩

/-- C10: `CopyTextureToTextureTask::prepareResources` checks source-null,
source-instantiate, destination-null, destination-instantiate in this order and stops at the
first failure.  With a null source the provider is not invoked.  When the source fails to
instantiate the provider has served that one call and none for the destination.  When the
source is present and the destination is null the provider has already served the call on
the source, whose effect on the proxies stays.  On success the provider has served exactly
two calls, the source first and the destination second. -/
theorem C10_textureToTexture_prepare_order (t : CopyTextureToTextureTask)
    (rp : ResourceProvider) (w : World) :
    (t.fSrcProxy = none →
      (t.prepareResources rp w).ok = false ∧
      (t.prepareResources rp w).provider.calls = rp.calls ∧
      (t.prepareResources rp w).world.fTexture = w.fTexture) ∧
    (∀ s, t.fSrcProxy = some s → (rp.instantiate rp.calls w.fTexture s).1 = false →
      (t.prepareResources rp w).ok = false ∧
      (t.prepareResources rp w).provider.calls = rp.calls ++ [s] ∧
      (t.prepareResources rp w).world.fTexture = (rp.instantiate rp.calls w.fTexture s).2 ∧
      (∀ d, d ≠ s →
        List.count d (t.prepareResources rp w).provider.calls = List.count d rp.calls)) ∧
    (∀ s, t.fSrcProxy = some s → (rp.instantiate rp.calls w.fTexture s).1 = true →
      t.fDstProxy = none →
      (t.prepareResources rp w).ok = false ∧
      (t.prepareResources rp w).provider.calls = rp.calls ++ [s] ∧
      (t.prepareResources rp w).world.fTexture = (rp.instantiate rp.calls w.fTexture s).2) ∧
    (∀ s d, t.fSrcProxy = some s → t.fDstProxy = some d →
      (rp.instantiate rp.calls w.fTexture s).1 = true →
      (rp.instantiate (rp.calls ++ [s]) (rp.instantiate rp.calls w.fTexture s).2 d).1 = false →
      (t.prepareResources rp w).ok = false ∧
      (t.prepareResources rp w).provider.calls = rp.calls ++ [s, d]) ∧
    ((t.prepareResources rp w).ok = true →
      ∃ s d, t.fSrcProxy = some s ∧ t.fDstProxy = some d ∧
        (t.prepareResources rp w).provider.calls = rp.calls ++ [s, d] ∧
        (t.prepareResources rp w).world.fTexture =
          (rp.instantiate (rp.calls ++ [s]) (rp.instantiate rp.calls w.fTexture s).2 d).2) := by
  refine ⟨fun hs => ?_, fun s hs hr => ?_, fun s hs hr hd => ?_, fun s d hs hd hr hq => ?_,
    ?_⟩
  · simp [CopyTextureToTextureTask.prepareResources, hs, SKGPU_LOG_E]
  · have hcalls : (t.prepareResources rp w).provider.calls = rp.calls ++ [s] := by
      simp [CopyTextureToTextureTask.prepareResources, hs, TextureProxy.InstantiateIfNotLazy, hr]
    refine ⟨?_, hcalls, ?_, fun d hd => ?_⟩
    · simp [CopyTextureToTextureTask.prepareResources, hs, TextureProxy.InstantiateIfNotLazy, hr]
    · simp [CopyTextureToTextureTask.prepareResources, hs, TextureProxy.InstantiateIfNotLazy, hr,
        SKGPU_LOG_E]
    · rw [hcalls, List.count_append]
      simp [List.count_cons, Ne.symm hd]
  · simp [CopyTextureToTextureTask.prepareResources, hs, hd, TextureProxy.InstantiateIfNotLazy,
      hr, SKGPU_LOG_E]
  · simp [CopyTextureToTextureTask.prepareResources, hs, hd, TextureProxy.InstantiateIfNotLazy,
      hr, hq]
  · cases hs : t.fSrcProxy with
    | none => simp [CopyTextureToTextureTask.prepareResources, hs]
    | some s =>
      simp only [CopyTextureToTextureTask.prepareResources, hs,
        TextureProxy.InstantiateIfNotLazy]
      cases hr : (rp.instantiate rp.calls w.fTexture s).1
      · simp
      · cases hd : t.fDstProxy with
        | none => simp
        | some d =>
          cases hq : (rp.instantiate (rp.calls ++ [s])
            (rp.instantiate rp.calls w.fTexture s).2 d).1 <;> simp [hq]

/-- An instance of C10: the source is present, the destination proxy is null.  The provider
has served one call, on the source, which is backed by the time failure is returned. -/
theorem C10_textureToTexture_prepare_order_witness :
    ((CopyTextureToTextureTask.Make (some 1) ⟨0, 0, 8, 8⟩ none ⟨4, 4⟩).prepareResources
      allocatingProvider freshWorld).ok = false ∧
    ((CopyTextureToTextureTask.Make (some 1) ⟨0, 0, 8, 8⟩ none ⟨4, 4⟩).prepareResources
      allocatingProvider freshWorld).provider.calls = [1] ∧
    ((CopyTextureToTextureTask.Make (some 1) ⟨0, 0, 8, 8⟩ none ⟨4, 4⟩).prepareResources
      allocatingProvider freshWorld).world.fTexture 1 = some { id := 1 } := by
  obtain ⟨hok, hcalls, htex⟩ :=
    (C10_textureToTexture_prepare_order
      (CopyTextureToTextureTask.Make (some 1) ⟨0, 0, 8, 8⟩ none ⟨4, 4⟩)
      allocatingProvider freshWorld).2.2.1 1 rfl rfl rfl
  exact ⟨hok, hcalls, by rw [htex]; rfl⟩

end skgpu.graphite
